import Mathlib

/-!
# Verification of the PR gating scanner

Shallow embedding of the rule-based scanning and severity-aggregation engine
of this repository (scripts/secrets_check.py, scripts/static_analysis.py,
scripts/utils/analysis_helpers.py, scripts/jira_check.py), together with
proofs and refutations of the specified properties.

Scanned content is modelled as lists of characters.  Each regular expression
used by the source is embedded as a deterministic matcher: for every pattern
occurring in the source, each greedy repetition ranges over a character class
that excludes the character required next by the pattern (or is at the very
end of the pattern), so Python's backtracking search and maximal-munch
matching agree, and a first-success scan over all start positions is an
exact model of `re.search`.
-/

/-- Scanned lines are lists of characters. -/
abbrev Chars := List Char

/-- Coerce a string literal to its character list. -/
def chars (s : String) : Chars := s.data

/-- Python `\s` (ASCII whitespace). -/
def pyWs (c : Char) : Bool :=
  c = ' ' || c = '\t' || c = '\n' || c = '\r' || c = '\x0b' || c = '\x0c'

/-- `[A-Za-z0-9]`; also `[0-9A-Z]` under `re.IGNORECASE`. -/
def alnum (c : Char) : Bool := c.isAlpha || c.isDigit

/-- A single or double quote character. -/
def isQuote (c : Char) : Bool := c = '"' || c = '\''

/-- `str.strip()`: drop ASCII whitespace from both ends. -/
def pstrip (l : Chars) : Chars :=
  ((l.dropWhile pyWs).reverse.dropWhile pyWs).reverse

/-- `needle in haystack` (substring containment). -/
def containsSeq (pat l : Chars) : Bool :=
  l.tails.any fun t => pat.isPrefixOf t

/-- `str.startswith`. -/
def startsSeq (pat l : Chars) : Bool := pat.isPrefixOf l

/-- `str.endswith`. -/
def endsSeq (pat l : Chars) : Bool := pat.reverse.isPrefixOf l.reverse

/-- A deterministic matcher: consume a prefix of the input, return the rest. -/
def DM : Type := Chars → Option Chars

/-- Sequencing of matchers (concatenation of regex pieces). -/
def dchain (ms : List DM) : DM := fun l =>
  ms.foldl (fun acc m => acc.bind m) (some l)

/-- Case-sensitive literal. -/
def dlit (s : String) : DM := fun l =>
  if s.data.isPrefixOf l then some (l.drop s.data.length) else none

/-- Case-insensitive literal (`re.IGNORECASE`); stated in lower case. -/
def dlitIC (s : String) : DM := fun l =>
  if (l.take s.data.length).map Char.toLower = s.data.map Char.toLower then
    some (l.drop s.data.length)
  else none

/-- One character of a class. -/
def dchar (p : Char → Bool) : DM := fun l =>
  match l with
  | c :: cs => if p c then some cs else none
  | [] => none

/-- `X*`: greedy star over a class. -/
def dstar (p : Char → Bool) : DM := fun l => some (l.dropWhile p)

/-- `X+`: greedy plus over a class. -/
def dplus (p : Char → Bool) : DM := fun l =>
  match l with
  | c :: cs => if p c then some (cs.dropWhile p) else none
  | [] => none

/-- `X?`: greedy option over a class. -/
def dopt (p : Char → Bool) : DM := fun l =>
  match l with
  | c :: cs => if p c then some cs else some (c :: cs)
  | [] => some []

/-- `X{n,}`: greedy, at least `n` characters of a class. -/
def datLeast (n : Nat) (p : Char → Bool) : DM := fun l =>
  if n ≤ (l.takeWhile p).length then some (l.dropWhile p) else none

/-- `X{n}`: exactly `n` characters of a class. -/
def dexact (n : Nat) (p : Char → Bool) : DM := fun l =>
  if n ≤ l.length && (l.take n).all p then some (l.drop n) else none

/-- Alternation `(a|b|...)`; the source's alternatives start with distinct
characters, so first-success is exact. -/
def dalt (ms : List DM) : DM := fun l => (ms.filterMap fun m => m l).head?

/-- `re.search`: try the pattern at every start position (`List.tails`
includes the end-of-string position). -/
def searchD (m : DM) (l : Chars) : Bool := l.tails.any fun t => (m t).isSome

/-- One finding, as the dictionaries built by the scanners:
`{'type', 'severity', 'file', 'line', 'description', 'code'}`. -/
structure Finding where
  type : String
  severity : String
  file : String
  line : Nat
  description : String
  code : Chars
deriving DecidableEq, Repr

/-- `content.split('\n')` (`''` splits to `['']`). -/
def splitNl : Chars → List Chars
  | [] => [[]]
  | c :: cs =>
    if c = '\n' then [] :: splitNl cs
    else
      match splitNl cs with
      | r :: rs => (c :: r) :: rs
      | [] => [[c]]

/-- The severity aggregation shared by `SecretScanner.scan_pr_files`
(secrets_check.py:304-306), `StaticAnalyzer.scan_pr_files`
(static_analysis.py:214-216) and `check_production_ready`
(analysis_helpers.py:177-182): the verdict is safe (PASS) exactly when the
list of findings filtered to severity HIGH is empty. -/
def gateIsSafe (issues : List Finding) : Bool :=
  (issues.filter fun i => i.severity == "HIGH").length == 0

/-! ## secrets_check.py: SecretScanner -/

/-- `[A-Za-z0-9/+=]` (AWS secret key value class). -/
def b64Cls (c : Char) : Bool := alnum c || c = '/' || c = '+' || c = '='

/-- `[A-Za-z0-9-_=]` (JWT segment class). -/
def jwtCls (c : Char) : Bool := alnum c || c = '-' || c = '_' || c = '='

/-- `[A-Za-z0-9-_.+/=]` (JWT trailing class). -/
def jwtTail (c : Char) : Bool := jwtCls c || c = '.' || c = '+' || c = '/'

/-- `[A-Za-z0-9_-]` (API/Slack token value class). -/
def tokCls (c : Char) : Bool := alnum c || c = '_' || c = '-'

/-- `[A-Za-z0-9/+=_-]` (generic secret value class, also the mask class). -/
def genCls (c : Char) : Bool := alnum c || c = '/' || c = '+' || c = '=' || c = '_' || c = '-'

/-- `[^"\']` (anything but a quote). -/
def nonQuote (c : Char) : Bool := !(isQuote c)

/-- `[_\s-]` (separator class inside key names). -/
def sepWs (c : Char) : Bool := c = '_' || pyWs c || c = '-'

/-- `\s*[:=]\s*` (assignment separator). -/
def dassign : List DM := [dstar pyWs, dchar (fun c => c = ':' || c = '='), dstar pyWs]

/-- `["\'](C{n,})["\']`: quoted run of at least `n` class characters. -/
def dquotedAtLeast (n : Nat) (cls : Char → Bool) : List DM :=
  [dchar isQuote, datLeast n cls, dchar isQuote]

/-- `AKIA[0-9A-Z]{16}` with `re.IGNORECASE`. -/
def awsAccessM : DM := dchain [dlitIC "akia", dexact 16 alnum]

/-- `aws[_\s-]?secret[_\s-]?access[_\s-]?key\s*[:=]\s*["\']?([A-Za-z0-9/+=]{40})["\']?`. -/
def awsSecretM : DM := dchain ([dlitIC "aws", dopt sepWs, dlitIC "secret", dopt sepWs,
  dlitIC "access", dopt sepWs, dlitIC "key"] ++ dassign ++
  [dopt isQuote, dexact 40 b64Cls, dopt isQuote])

/-- `eyJ[A-Za-z0-9-_=]+\.eyJ[A-Za-z0-9-_=]+\.?[A-Za-z0-9-_.+/=]*` (IGNORECASE). -/
def jwtM : DM := dchain [dlitIC "eyj", dplus jwtCls, dchar (fun c => c = '.'),
  dlitIC "eyj", dplus jwtCls, dopt (fun c => c = '.'), dstar jwtTail]

/-- `-----BEGIN\s+(RSA|DSA|EC|OPENSSH|PGP)\s+PRIVATE\s+KEY-----` (IGNORECASE). -/
def privateKeyM : DM := dchain [dlitIC "-----begin", dplus pyWs,
  dalt [dlitIC "rsa", dlitIC "dsa", dlitIC "ec", dlitIC "openssh", dlitIC "pgp"],
  dplus pyWs, dlitIC "private", dplus pyWs, dlitIC "key-----"]

/-- `PASSWORD_PATTERNS`: `(password|pwd|passwd)\s*[:=]\s*["\']([^"\']{8,})["\']`. -/
def passwordPatterns : List DM :=
  [dchain ([dlitIC "password"] ++ dassign ++ dquotedAtLeast 8 nonQuote),
   dchain ([dlitIC "pwd"] ++ dassign ++ dquotedAtLeast 8 nonQuote),
   dchain ([dlitIC "passwd"] ++ dassign ++ dquotedAtLeast 8 nonQuote)]

/-- `API_TOKEN_PATTERNS` (three quoted forms with value length at least 20,
two unquoted forms with value length at least 5). -/
def apiTokenPatterns : List DM :=
  [dchain ([dlitIC "api", dopt sepWs, dlitIC "key"] ++ dassign ++ dquotedAtLeast 20 tokCls),
   dchain ([dlitIC "api", dopt sepWs, dlitIC "token"] ++ dassign ++ dquotedAtLeast 20 tokCls),
   dchain ([dlitIC "apikey"] ++ dassign ++ dquotedAtLeast 20 tokCls),
   dchain ([dlitIC "apikey"] ++ dassign ++ [datLeast 5 tokCls]),
   dchain ([dlitIC "api", dopt sepWs, dlitIC "key"] ++ dassign ++ [datLeast 5 tokCls])]

/-- `ghp_|gho_|ghu_|ghs_|ghr_` followed by 36 alphanumerics (IGNORECASE). -/
def ghPatM : DM := dalt [dchain [dlitIC "ghp_", dexact 36 alnum],
  dchain [dlitIC "gho_", dexact 36 alnum], dchain [dlitIC "ghu_", dexact 36 alnum],
  dchain [dlitIC "ghs_", dexact 36 alnum], dchain [dlitIC "ghr_", dexact 36 alnum]]

/-- `SLACK_TOKEN_PATTERNS`: `xox[baprs]-[0-9a-zA-Z-]{10,}` and a quoted
`slack[_\s-]?token` assignment. -/
def slackPatterns : List DM :=
  [dchain [dlitIC "xox",
     dchar (fun c => c.toLower = 'b' || c.toLower = 'a' || c.toLower = 'p' ||
                     c.toLower = 'r' || c.toLower = 's'),
     dchar (fun c => c = '-'), datLeast 10 (fun c => alnum c || c = '-')],
   dchain ([dlitIC "slack", dopt sepWs, dlitIC "token"] ++ dassign ++ dquotedAtLeast 20 tokCls)]

/-- `AIza[0-9A-Za-z_-]{35}` (IGNORECASE). -/
def googleApiKeyM : DM := dchain [dlitIC "aiza", dexact 35 tokCls]

/-- `SECRET_PATTERNS` (generic quoted secret/private-key/access-token). -/
def genericSecretPatterns : List DM :=
  [dchain ([dlitIC "secret"] ++ dassign ++ dquotedAtLeast 20 genCls),
   dchain ([dlitIC "private", dopt sepWs, dlitIC "key"] ++ dassign ++ dquotedAtLeast 40 genCls),
   dchain ([dlitIC "access", dopt sepWs, dlitIC "token"] ++ dassign ++ dquotedAtLeast 20 genCls)]

/-- The replacement literal `"***MASKED***"` of `_sanitize_line`. -/
def maskedLit : Chars := chars "\"***MASKED***\""

/-- The `re.sub(r'["\']([A-Za-z0-9/+=_-]{20,})["\']', r'"***MASKED***"', line)`
step of `_sanitize_line`: scan left to right; a match is a quote, a maximal
run of at least 20 mask-class characters (the class excludes quotes, so
greedy matching is exact), and a closing quote; on a match substitute and
continue after it, otherwise advance one character.
The recursion is driven by a fuel counter so that the definition is
structural (each step consumes at least one input character, so the input
length — the fuel `maskSub` supplies — is never exhausted). -/
def maskSubGo : Nat → Chars → Chars
  | 0, l => l
  | _ + 1, [] => []
  | fuel + 1, c :: cs =>
    if isQuote c then
      if 20 ≤ (cs.takeWhile genCls).length then
        match cs.dropWhile genCls with
        | q :: rest2 =>
          if isQuote q then maskedLit ++ maskSubGo fuel rest2
          else c :: maskSubGo fuel cs
        | [] => c :: maskSubGo fuel cs
      else c :: maskSubGo fuel cs
    else c :: maskSubGo fuel cs

/-- The substitution step of `_sanitize_line` (see `maskSubGo`). -/
def maskSub (l : Chars) : Chars := maskSubGo l.length l

/-- The truncation step of `_sanitize_line` (`max_length = 100`). -/
def truncateLine (l : Chars) : Chars :=
  if 100 < l.length then l.take 100 ++ chars "..." else l

/-- `SecretScanner._sanitize_line`: truncate, then mask quoted long runs. -/
def sanitizeLine (l : Chars) : Chars := maskSub (truncateLine l)

/-- The pattern of the masking substitution itself,
`["\']([A-Za-z0-9/+=_-]{20,})["\']`, as a matcher: a quote, at least 20
mask-class characters, a quote. -/
def maskPatM : DM := dchain (dquotedAtLeast 20 genCls)

/-- The nine per-line checks of `SecretScanner.scan_file`, in source order.
Each multi-pattern category appends one finding if any of its patterns
matches (the source `break`s after the first match, and the finding does not
depend on which pattern matched). -/
def secretChecks : List ((Chars → Bool) × String × String) :=
  [(fun l => searchD awsAccessM l, "AWS_ACCESS_KEY", "AWS Access Key ID detected"),
   (fun l => searchD awsSecretM l, "AWS_SECRET_KEY", "AWS Secret Access Key detected"),
   (fun l => searchD jwtM l, "JWT_TOKEN", "JWT token detected"),
   (fun l => searchD privateKeyM l, "PRIVATE_KEY", "Private key detected"),
   (fun l => passwordPatterns.any fun m => searchD m l, "PASSWORD", "Hardcoded password detected"),
   (fun l => apiTokenPatterns.any fun m => searchD m l, "API_TOKEN", "API token detected"),
   (fun l => searchD ghPatM l, "GITHUB_PAT", "GitHub Personal Access Token detected"),
   (fun l => slackPatterns.any fun m => searchD m l, "SLACK_TOKEN", "Slack token detected"),
   (fun l => searchD googleApiKeyM l, "GOOGLE_API_KEY", "Google API key detected"),
   (fun l => genericSecretPatterns.any fun m => searchD m l, "GENERIC_SECRET", "Generic secret detected")]

/-- The loop body of `SecretScanner.scan_file` for one line: lines whose
stripped form starts with `#` are skipped; otherwise each check appends one
HIGH finding whose `code` is the sanitized line. -/
def secretsScanLine (fp : String) (lineNum : Nat) (l : Chars) : List Finding :=
  if startsSeq (chars "#") (pstrip l) then []
  else
    secretChecks.filterMap fun chk =>
      if chk.1 l then
        some { type := chk.2.1, severity := "HIGH", file := fp, line := lineNum,
               description := chk.2.2, code := sanitizeLine l }
      else none

/-- `SecretScanner.scan_file`: split on newlines, scan each line
(1-based numbering). -/
def secretsScanFile (fp : String) (content : Chars) : List Finding :=
  ((splitNl content).enum).flatMap fun p => secretsScanLine fp (p.1 + 1) p.2

/-- One changed file as returned by the source provider (`filename`,
`patch`). -/
structure FileInfo where
  filename : String
  patch : Chars

/-- `pathlib.Path(filename).suffix`: the extension of the final component
(`name[i:]` for the last dot index `i` when `0 < i < len(name) - 1`,
else empty). -/
def pathSuffix (fname : String) : Chars :=
  let name : Chars := (fname.data.reverse.takeWhile (fun c => c ≠ '/')).reverse
  let tl := name.reverse.takeWhile (fun c => c ≠ '.')
  if name.any (fun c => c = '.') then
    let i := name.length - 1 - tl.length
    if 0 < i && i < name.length - 1 then name.drop i else []
  else []

/-- Extensions skipped by `SecretScanner.scan_pr_files`. -/
def secretsSkipSuffixes : List Chars :=
  [chars ".png", chars ".jpg", chars ".jpeg", chars ".gif", chars ".ico", chars ".pdf"]

/-- `SecretScanner.scan_pr_files`.  The provider call
`github_api.get_pr_files(pr_number)` is modelled by the `Except` argument;
the source wraps it in `try/except` and returns `(True, [])` on any error
("Fail open on error"). -/
def secretsScanPrFiles (filesRes : Except String (List FileInfo)) : Bool × List Finding :=
  match filesRes with
  | Except.ok files =>
    let allIssues := files.flatMap fun fi =>
      if secretsSkipSuffixes.contains (pathSuffix fi.filename) then []
      else if fi.patch.isEmpty then []
      else secretsScanFile fi.filename fi.patch
    ((allIssues.filter fun i => i.severity == "HIGH").length == 0, allIssues)
  | Except.error _ => (true, [])

/-- Python truthiness of an environment variable (`os.getenv`): unset
(`None`) and the empty string are falsy. -/
def truthyEnv : Option String → Bool
  | none => false
  | some s => !s.isEmpty

/-- Exit code of `secrets_check.main`: exit 1 when any of `GITHUB_TOKEN`,
`GITHUB_REPOSITORY`, `PR_NUMBER` is missing; otherwise exit 1 iff the scan
is not safe. -/
def secretsMainExit (tok repo pr : Option String)
    (filesRes : Except String (List FileInfo)) : Nat :=
  if !(truthyEnv tok && truthyEnv repo && truthyEnv pr) then 1
  else if !(secretsScanPrFiles filesRes).1 then 1 else 0

/-! ## analysis_helpers.py: scan_file_for_issues / check_production_ready

All pattern searches in this module call `re.search(pattern, line,
re.IGNORECASE)` on the module-level function, so every pattern is
case-insensitive.  None of the three per-category loops contains a `break`:
every matching pattern of a category appends its own finding. -/

/-- `DEBUG_PATTERNS` of analysis_helpers.py, with their descriptions. -/
def helperDebugPatterns : List (DM × String) :=
  [(dlitIC "console.log(", "JavaScript console.log"),
   (dchain [dlitIC "print", dstar pyWs, dchar (fun c => c = '(')], "Python print statement"),
   (dchain [dlitIC "debugger", dstar pyWs, dchar (fun c => c = ';')], "JavaScript debugger statement"),
   (dlitIC "pdb.set_trace(", "Python pdb debugger"),
   (dlitIC "import pdb", "Python pdb import"),
   (dlitIC "debugger", "Debugger keyword")]

/-- `TODO_PATTERNS` of analysis_helpers.py. -/
def helperTodoPatterns : List (DM × String) :=
  [(dlitIC "todo:", "TODO comment"), (dlitIC "fixme:", "FIXME comment"),
   (dlitIC "hack:", "HACK comment"), (dlitIC "xxx:", "XXX comment"),
   (dlitIC "note:", "NOTE comment")]

/-- `SECRET_PATTERNS` of analysis_helpers.py.  The separator class in the
key names is `[_-]` only and the assignment uses `=` only; the quoted value
is any nonempty run of non-quote characters. -/
def helperSecretPatterns : List (DM × String) :=
  [(dchain [dlitIC "password", dstar pyWs, dchar (fun c => c = '='), dstar pyWs,
      dchar isQuote, dplus nonQuote, dchar isQuote], "Hardcoded password"),
   (dchain [dlitIC "api", dopt (fun c => c = '_' || c = '-'), dlitIC "key",
      dstar pyWs, dchar (fun c => c = '='), dstar pyWs,
      dchar isQuote, dplus nonQuote, dchar isQuote], "Hardcoded API key"),
   (dchain [dlitIC "secret", dstar pyWs, dchar (fun c => c = '='), dstar pyWs,
      dchar isQuote, dplus nonQuote, dchar isQuote], "Hardcoded secret"),
   (dchain [dlitIC "token", dstar pyWs, dchar (fun c => c = '='), dstar pyWs,
      dchar isQuote, dplus nonQuote, dchar isQuote], "Hardcoded token"),
   (dchain [dlitIC "aws", dopt (fun c => c = '_' || c = '-'), dlitIC "access",
      dopt (fun c => c = '_' || c = '-'), dlitIC "key"], "AWS access key"),
   (dchain [dlitIC "aws", dopt (fun c => c = '_' || c = '-'), dlitIC "secret",
      dopt (fun c => c = '_' || c = '-'), dlitIC "key"], "AWS secret key"),
   (dchain [dlitIC "begin", dplus pyWs,
      dalt [dlitIC "rsa", dlitIC "dsa", dlitIC "ec", dlitIC "openssh"],
      dplus pyWs, dlitIC "private", dplus pyWs, dlitIC "key"], "Private key")]

/-- `COMMENTED_CODE_THRESHOLD = 10` (analysis_helpers.py). -/
def helperBlockThreshold : Nat := 10

/-- The per-line part of `scan_file_for_issues`: every matching pattern of
every category appends a finding (no `break` in the source loops). -/
def helperScanLine (fp : String) (lineNum : Nat) (l : Chars) : List Finding :=
  (helperDebugPatterns.filterMap fun pd =>
    if searchD pd.1 l then
      some { type := "DEBUG_CODE", severity := "HIGH", file := fp, line := lineNum,
             description := pd.2 ++ " found", code := pstrip l }
    else none) ++
  (helperTodoPatterns.filterMap fun pd =>
    if searchD pd.1 l then
      some { type := "TODO", severity := "MEDIUM", file := fp, line := lineNum,
             description := pd.2 ++ " found", code := pstrip l }
    else none) ++
  (helperSecretPatterns.filterMap fun pd =>
    if searchD pd.1 l then
      some { type := "SECRET", severity := "HIGH", file := fp, line := lineNum,
             description := pd.2 ++ " found", code := (pstrip l).take 100 }
    else none)

/-- Comment test of the block loop in `scan_file_for_issues`: the stripped
line starts with `#`, `//` or `/*`. -/
def helperIsComment (stripped : Chars) : Bool :=
  startsSeq (chars "#") stripped || startsSeq (chars "//") stripped ||
  startsSeq (chars "/*") stripped

/-- The second loop of `scan_file_for_issues` (`for line in lines:`).  This
loop does not rebind `line_num`: every COMMENTED_CODE finding it appends
carries the value `line_num` retained from the completed first loop, which
is the number of the file's last line (`staleLineNum`).  The counter resets
to 0 after each emission, so it reaches the threshold exactly. -/
def helperBlockScan (fp : String) (staleLineNum : Nat) : List Chars → Nat → List Finding
  | [], _ => []
  | l :: ls, cnt =>
    let cnt' := if helperIsComment (pstrip l) then cnt + 1 else 0
    if helperBlockThreshold ≤ cnt' then
      { type := "COMMENTED_CODE", severity := "LOW", file := fp, line := staleLineNum,
        description := "Large block of commented code (" ++ toString cnt' ++ " lines)",
        code := [] } :: helperBlockScan fp staleLineNum ls 0
    else helperBlockScan fp staleLineNum ls cnt'

/-- `scan_file_for_issues`: the per-line findings of the first loop followed
by the COMMENTED_CODE findings of the second loop. -/
def scanFileForIssues (fp : String) (content : Chars) : List Finding :=
  let lines := splitNl content
  (lines.enum.flatMap fun p => helperScanLine fp (p.1 + 1) p.2) ++
  helperBlockScan fp lines.length lines 0

/-- Extensions skipped by `check_production_ready`. -/
def helperSkipSuffixes : List Chars :=
  [chars ".md", chars ".txt", chars ".json", chars ".yml", chars ".yaml"]

/-- `check_production_ready`: missing GitHub environment variables skip the
scan and return `(True, [])`; a provider error also returns `(True, [])`
("Fail open on error"); otherwise scan every non-skipped file with a patch
and fail exactly when a HIGH finding exists. -/
def checkProductionReady (tok repo pr : Option String)
    (filesRes : Except String (List FileInfo)) : Bool × List Finding :=
  if !(truthyEnv tok && truthyEnv repo && truthyEnv pr) then (true, [])
  else
    match filesRes with
    | Except.ok files =>
      let allIssues := files.flatMap fun fi =>
        if helperSkipSuffixes.contains (pathSuffix fi.filename) then []
        else if fi.patch.isEmpty then []
        else scanFileForIssues fi.filename fi.patch
      if (allIssues.filter fun i => i.severity == "HIGH") ≠ [] then (false, allIssues)
      else (true, allIssues)
    | Except.error _ => (true, [])

/-- Exit code of `analysis_helpers.main --check-production-ready`:
0 when `check_production_ready` reports ready, 1 otherwise. -/
def helperProductionMainExit (tok repo pr : Option String)
    (filesRes : Except String (List FileInfo)) : Nat :=
  if (checkProductionReady tok repo pr filesRes).1 then 0 else 1

/-! ## static_analysis.py: StaticAnalyzer

The patterns here are compiled without flags and searched with
`pattern.search(line)`, so they are case-sensitive.  The TODO loop calls
`pattern.search(line, re.IGNORECASE)` on a *compiled* pattern, whose second
positional parameter is `pos`, not a flag set: since `re.IGNORECASE == 2`,
the TODO search is case-sensitive and starts at character index 2. -/

/-- `StaticAnalyzer.DEBUG_PATTERNS`. -/
def staticDebugPatterns : List (DM × String) :=
  [(dchain [dlit "console.log", dstar pyWs, dchar (fun c => c = '(')], "JavaScript console.log"),
   (dchain [dlit "console.debug", dstar pyWs, dchar (fun c => c = '(')], "JavaScript console.debug"),
   (dchain [dlit "console.warn", dstar pyWs, dchar (fun c => c = '(')], "JavaScript console.warn"),
   (dchain [dlit "print", dstar pyWs, dchar (fun c => c = '('),
      dstar (fun c => c ≠ ')'), dchar (fun c => c = ')')], "Python print statement"),
   (dchain [dlit "debugger", dstar pyWs, dchar (fun c => c = ';')], "JavaScript debugger statement"),
   (dchain [dlit "pdb.set_trace", dstar pyWs, dchar (fun c => c = '(')], "Python pdb.set_trace"),
   (dchain [dlit "import", dplus pyWs, dlit "pdb"], "Python pdb import"),
   (dlit "debugger", "Debugger keyword"),
   (dchain [dlit "var_dump", dstar pyWs, dchar (fun c => c = '(')], "PHP var_dump"),
   (dchain [dlit "dd", dstar pyWs, dchar (fun c => c = '(')], "Laravel dd()")]

/-- `StaticAnalyzer.TODO_PATTERNS` (`TODO\s*:` and friends). -/
def staticTodoPatterns : List (DM × String) :=
  [(dchain [dlit "TODO", dstar pyWs, dchar (fun c => c = ':')], "TODO comment"),
   (dchain [dlit "FIXME", dstar pyWs, dchar (fun c => c = ':')], "FIXME comment"),
   (dchain [dlit "HACK", dstar pyWs, dchar (fun c => c = ':')], "HACK comment"),
   (dchain [dlit "XXX", dstar pyWs, dchar (fun c => c = ':')], "XXX comment"),
   (dchain [dlit "NOTE", dstar pyWs, dchar (fun c => c = ':')], "NOTE comment"),
   (dchain [dlit "BUG", dstar pyWs, dchar (fun c => c = ':')], "BUG comment")]

/-- `StaticAnalyzer.COMMENTED_CODE_THRESHOLD = 5`. -/
def staticBlockThreshold : Nat := 5

/-- `StaticAnalyzer._is_in_string_or_comment`: true when the stripped line
starts with `#` or `//`, or the line contains a triple quote anywhere. -/
def isInStringOrComment (l : Chars) : Bool :=
  let stripped := pstrip l
  if startsSeq (chars "#") stripped || startsSeq (chars "//") stripped then true
  else if containsSeq (chars "\"\"\"") l || containsSeq (chars "'''") l then true
  else false

/-- `StaticAnalyzer._is_commented_line`. -/
def staticIsCommentedLine (line : Chars) : Bool :=
  let stripped := pstrip line
  startsSeq (chars "#") stripped || startsSeq (chars "//") stripped ||
  startsSeq (chars "/*") stripped || startsSeq (chars "*") stripped ||
  (startsSeq (chars "<!--") stripped && endsSeq (chars "-->") stripped)

/-- The DEBUG block of the `StaticAnalyzer.scan_file` loop body: first
pattern that matches outside a string/comment wins (`break`). -/
def staticDebugFindings (fp : String) (lineNum : Nat) (l : Chars) : List Finding :=
  match staticDebugPatterns.find? (fun pd => searchD pd.1 l && !isInStringOrComment l) with
  | some pd =>
    [{ type := "DEBUG_CODE", severity := "HIGH", file := fp, line := lineNum,
       description := pd.2 ++ " found - remove before production",
       code := (pstrip l).take 100 }]
  | none => []

/-- The TODO block of the `StaticAnalyzer.scan_file` loop body: first
matching pattern wins; the search starts at index 2 (see the section
comment). -/
def staticTodoFindings (fp : String) (lineNum : Nat) (l : Chars) : List Finding :=
  match staticTodoPatterns.find? (fun pd => searchD pd.1 (l.drop 2)) with
  | some pd =>
    [{ type := "TODO", severity := "MEDIUM", file := fp, line := lineNum,
       description := pd.2 ++ " found - address before merging",
       code := (pstrip l).take 100 }]
  | none => []

/-- A COMMENTED_CODE finding of `StaticAnalyzer.scan_file`. -/
def staticBlockFinding (fp : String) (ln cnt : Nat) : Finding :=
  { type := "COMMENTED_CODE", severity := "LOW", file := fp, line := ln,
    description := "Large block of commented code (" ++ toString cnt ++
      " lines) - consider removing", code := [] }

/-- The loop of `StaticAnalyzer.scan_file` over numbered lines, carrying
`commented_block_start` and `commented_lines`: a comment-like line extends
the run (starting it at the current line if none is active); a non-comment
line closes the run, emitting a finding anchored at the run's start when
the count reached the threshold; a run still open at end of file is checked
the same way. -/
def staticScanLines (fp : String) : Nat → Option Nat → Nat → List Chars → List Finding
  | _, start, cnt, [] =>
    if staticBlockThreshold ≤ cnt then [staticBlockFinding fp (start.getD 0) cnt] else []
  | n, start, cnt, l :: ls =>
    staticDebugFindings fp n l ++ staticTodoFindings fp n l ++
    (if staticIsCommentedLine (pstrip l) then
      staticScanLines fp (n + 1) (some (start.getD n)) (cnt + 1) ls
    else
      (if staticBlockThreshold ≤ cnt then [staticBlockFinding fp (start.getD 0) cnt] else []) ++
      staticScanLines fp (n + 1) none 0 ls)

/-- `StaticAnalyzer.scan_file`. -/
def staticScanFile (fp : String) (content : Chars) : List Finding :=
  staticScanLines fp 1 none 0 (splitNl content)

/-- Extensions skipped by `StaticAnalyzer.scan_pr_files`. -/
def staticSkipSuffixes : List Chars :=
  [chars ".md", chars ".txt", chars ".json", chars ".yml", chars ".yaml",
   chars ".png", chars ".jpg"]

/-- `StaticAnalyzer.scan_pr_files`; returns `(True, [])` on a provider
error ("Fail open on error"). -/
def staticScanPrFiles (filesRes : Except String (List FileInfo)) : Bool × List Finding :=
  match filesRes with
  | Except.ok files =>
    let allIssues := files.flatMap fun fi =>
      if staticSkipSuffixes.contains (pathSuffix fi.filename) then []
      else if fi.patch.isEmpty then []
      else staticScanFile fi.filename fi.patch
    ((allIssues.filter fun i => i.severity == "HIGH").length == 0, allIssues)
  | Except.error _ => (true, [])

/-- Exit code of `static_analysis.main`: 1 on missing configuration, else
1 iff the scan is not clean. -/
def staticMainExit (tok repo pr : Option String)
    (filesRes : Except String (List FileInfo)) : Nat :=
  if !(truthyEnv tok && truthyEnv repo && truthyEnv pr) then 1
  else if !(staticScanPrFiles filesRes).1 then 1 else 0

/-! ## jira_check.py: ticket status validation -/

/-- The `allowed_statuses` list of `jira_check.main`, verbatim (with its
duplicate case variants). -/
def allowedStatuses : List Chars :=
  [chars "In Progress", chars "IN PROGRESS", chars "In Progress",
   chars "Ready for Review", chars "READY FOR REVIEW",
   chars "In Review", chars "IN REVIEW",
   chars "Code Review", chars "CODE REVIEW",
   chars "To Do", chars "TO DO", chars "To Do",
   chars "Done", chars "DONE"]

/-- `status.upper().strip()` (normalization applied to both the looked-up
status and the allow-list members). -/
def normStatus (s : Chars) : Chars := pstrip (s.map Char.toUpper)

/-- The membership test of `jira_check.main` (`ticket_status_normalized
not in allowed_statuses_normalized`): the ticket status is accepted iff its
normalized form is in the normalized allow-list. -/
def statusAllowedJ (s : Chars) : Bool :=
  (allowedStatuses.map normStatus).contains (normStatus s)

/-! ## Helper lemmas -/

/-- `maskSubGo` leaves a line without quote characters unchanged
(whatever the fuel). -/
theorem maskSubGo_of_no_quote (fuel : Nat) (l : Chars)
    (h : ∀ c ∈ l, isQuote c = false) : maskSubGo fuel l = l := by
  induction fuel generalizing l with
  | zero => rw [maskSubGo]
  | succ fuel ih =>
    cases l with
    | nil => rw [maskSubGo]
    | cons c cs =>
      rw [maskSubGo]
      have hc : isQuote c = false := h c (List.mem_cons_self c cs)
      simp only [hc, Bool.false_eq_true, if_false, List.cons.injEq, true_and]
      exact ih cs fun x hx => h x (List.mem_cons_of_mem c hx)

/-- `maskSub` leaves a line without quote characters unchanged. -/
theorem maskSub_of_no_quote (l : Chars) (h : ∀ c ∈ l, isQuote c = false) :
    maskSub l = l := maskSubGo_of_no_quote l.length l h

/-- Truncation is idempotent. -/
theorem truncateLine_idem (l : Chars) : truncateLine (truncateLine l) = truncateLine l := by
  by_cases h : 100 < l.length
  · have h100 : (l.take 100).length = 100 := by
      simp only [List.length_take]
      omega
    have hlong : 100 < (l.take 100 ++ chars "...").length := by
      rw [List.length_append, h100]
      decide
    unfold truncateLine
    rw [if_pos h, if_pos hlong, List.take_left' h100]
  · unfold truncateLine
    rw [if_neg h, if_neg h]

/-- Truncation preserves the absence of quote characters. -/
theorem truncateLine_no_quote (l : Chars) (h : ∀ c ∈ l, isQuote c = false) :
    ∀ c ∈ truncateLine l, isQuote c = false := by
  intro c hc
  unfold truncateLine at hc
  by_cases hl : 100 < l.length
  · rw [if_pos hl] at hc
    rcases List.mem_append.1 hc with h1 | h2
    · exact h c ((List.take_sublist 100 l).subset h1)
    · have : c = '.' := by
        rcases h2 with _ | ⟨_, _ | ⟨_, _ | ⟨_, h3⟩⟩⟩ <;> first | rfl | cases h3
      rw [this]
      rfl
  · rw [if_neg hl] at hc
    exact h c hc

/-- `containsSeq` on a cons: the pattern starts here or occurs in the tail. -/
theorem containsSeq_cons (pat : Chars) (c : Char) (l : Chars) :
    containsSeq pat (c :: l) = (pat.isPrefixOf (c :: l) || containsSeq pat l) := by
  simp [containsSeq, List.tails_cons]

/-- `searchD` on a cons: a match starts here or further right. -/
theorem searchD_cons (m : DM) (c : Char) (l : Chars) :
    searchD m (c :: l) = ((m (c :: l)).isSome || searchD m l) := by
  simp [searchD, List.tails_cons]

/-- `searchD` on the empty input only tries the empty suffix. -/
theorem searchD_nil (m : DM) : searchD m [] = (m []).isSome := by
  simp [searchD]

/-- A list that starts with the pattern contains it. -/
theorem containsSeq_self_append (pat x : Chars) : containsSeq pat (pat ++ x) = true := by
  unfold containsSeq
  rw [List.any_eq_true]
  exact ⟨pat ++ x, (List.mem_tails _ _).2 (List.suffix_refl _),
    List.isPrefixOf_iff_prefix.2 (List.prefix_append pat x)⟩

/-- The masking pattern rejects the empty input. -/
theorem maskPatM_nil : maskPatM [] = none := by
  simp [maskPatM, dchain, dquotedAtLeast, dchar]

/-- If the masking pattern matches somewhere in the input and the fuel
covers the input, the masked output contains the mask literal. -/
theorem maskSubGo_contains_mask (fuel : Nat) : ∀ l : Chars, l.length ≤ fuel →
    searchD maskPatM l = true → containsSeq maskedLit (maskSubGo fuel l) = true := by
  induction fuel with
  | zero =>
    intro l hf h
    match l, hf with
    | [], _ =>
      rw [searchD_nil, maskPatM_nil] at h
      cases h
  | succ f ih =>
    intro l hf h
    match l with
    | [] =>
      rw [searchD_nil, maskPatM_nil] at h
      cases h
    | c :: cs =>
      rw [searchD_cons] at h
      have hlen : cs.length ≤ f := by
        simp only [List.length_cons] at hf
        omega
      rw [maskSubGo]
      cases hq : isQuote c with
      | true =>
        by_cases hrun : 20 ≤ (cs.takeWhile genCls).length
        · cases hdrop : cs.dropWhile genCls with
          | cons q rest2 =>
            cases hq2 : isQuote q with
            | true =>
              simp only [hq, hrun, hdrop, hq2, if_true, if_pos]
              exact containsSeq_self_append _ _
            | false =>
              have hnone : maskPatM (c :: cs) = none := by
                simp [maskPatM, dchain, dquotedAtLeast, dchar, datLeast, hq, hrun, hdrop, hq2]
              rw [hnone] at h
              simp only [Option.isSome_none, Bool.false_or] at h
              simp only [hq, hrun, hdrop, hq2, if_true, if_pos, Bool.false_eq_true, if_false]
              rw [containsSeq_cons, ih cs hlen h]
              simp
          | nil =>
            have hnone : maskPatM (c :: cs) = none := by
              simp [maskPatM, dchain, dquotedAtLeast, dchar, datLeast, hq, hrun, hdrop]
            rw [hnone] at h
            simp only [Option.isSome_none, Bool.false_or] at h
            simp only [hq, hrun, hdrop, if_true, if_pos]
            rw [containsSeq_cons, ih cs hlen h]
            simp
        · have hnone : maskPatM (c :: cs) = none := by
            simp [maskPatM, dchain, dquotedAtLeast, dchar, datLeast, hq, hrun]
          rw [hnone] at h
          simp only [Option.isSome_none, Bool.false_or] at h
          simp only [hq, hrun, if_true, if_neg, if_false]
          rw [containsSeq_cons, ih cs hlen h]
          simp
      | false =>
        have hnone : maskPatM (c :: cs) = none := by
          simp [maskPatM, dchain, dquotedAtLeast, dchar, hq]
        rw [hnone] at h
        simp only [Option.isSome_none, Bool.false_or] at h
        simp only [hq, Bool.false_eq_true, if_false]
        rw [containsSeq_cons, ih cs hlen h]
        simp

/-- If the masking pattern matches somewhere in a line, `maskSub` yields
the mask literal somewhere in its output. -/
theorem maskSub_contains_mask (l : Chars) (h : searchD maskPatM l = true) :
    containsSeq maskedLit (maskSub l) = true :=
  maskSubGo_contains_mask l.length l (Nat.le_refl _) h

/-! ## Claim theorems -/

/-- C1: for every list of findings, the gate decision is FAIL (not safe)
iff at least one finding has severity HIGH; with no HIGH finding the
decision is PASS regardless of MEDIUM/LOW findings. -/
theorem C1_gate_fail_iff_high (issues : List Finding) :
    gateIsSafe issues = false ↔ ∃ f ∈ issues, f.severity = "HIGH" := by
  simp [gateIsSafe, List.length_eq_zero, List.filter_eq_nil_iff]

/-- C3: a provider error while obtaining the files to scan yields a passing
verdict with empty findings in all three scanners (fail open). -/
theorem C3_fail_open_on_provider_error (e : String) :
    secretsScanPrFiles (Except.error e) = (true, []) ∧
    staticScanPrFiles (Except.error e) = (true, []) ∧
    ∀ tok repo pr, checkProductionReady tok repo pr (Except.error e) = (true, []) := by
  refine ⟨rfl, rfl, fun tok repo pr => ?_⟩
  unfold checkProductionReady
  split <;> rfl

/-- C4 (code bug witness): on a file of exactly ten consecutive `#` comment
lines, `scan_file_for_issues` (threshold 10) emits exactly one
COMMENTED_CODE finding, but anchored at line 10 — the stale `line_num` left
over from the preceding per-line loop (the file's last line) — instead of
the run's first line 1. -/
theorem C4_helper_block_anchored_at_stale_line :
    ((scanFileForIssues "f" (chars "#\n#\n#\n#\n#\n#\n#\n#\n#\n#")).map
      fun f => (f.type, f.line)) = [("COMMENTED_CODE", 10)] := by
  decide

/-- C5 (counterexample): in `scan_file_for_issues` the category loops have
no `break`, so the single line `debugger;` records two DEBUG_CODE findings
(one for `debugger\s*;`, one for `debugger`), refuting "each category
records at most one finding per line". -/
theorem C5_counterexample_two_debug_findings :
    ((scanFileForIssues "f" (chars "debugger;")).filter
      fun f => f.type == "DEBUG_CODE").length = 2 := by
  decide

/-- C5 (amended): in `StaticAnalyzer.scan_file` each of the DEBUG and TODO
categories records at most one finding per line, the first matching rule
winning (`List.find?`). -/
theorem C5_static_at_most_one_per_category (fp : String) (n : Nat) (l : Chars) :
    (staticDebugFindings fp n l).length ≤ 1 ∧ (staticTodoFindings fp n l).length ≤ 1 := by
  constructor
  · unfold staticDebugFindings
    split <;> simp
  · unfold staticTodoFindings
    split <;> simp

/-- Any line whose `_is_in_string_or_comment` heuristic fires yields no
DEBUG finding in `StaticAnalyzer.scan_file`. -/
theorem staticDebugFindings_nil_of_heuristic (fp : String) (n : Nat) (l : Chars)
    (h : isInStringOrComment l = true) : staticDebugFindings fp n l = [] := by
  unfold staticDebugFindings
  have hn : staticDebugPatterns.find?
      (fun pd => searchD pd.1 l && !isInStringOrComment l) = none := by
    rw [List.find?_eq_none]
    intro pd _
    simp [h]
  rw [hn]

/-- `List.contains` agrees with membership on character lists. -/
theorem containsCharsIffMem (l : List Chars) (a : Chars) : l.contains a = true ↔ a ∈ l := by
  show l.elem a = true ↔ a ∈ l
  exact List.elem_iff

/-- C2 (counterexample): the line `key = AKIA0123456789ABCDEF` matches the
AWS access-key rule and yields a HIGH finding, but its snippet does not
contain the mask token and does contain the raw key: `_sanitize_line` masks
only quoted runs of at least 20 mask-class characters, and this key is
unquoted. -/
theorem C2_counterexample_unquoted_key_unmasked :
    ((secretsScanLine "config.py" 1 (chars "key = AKIA0123456789ABCDEF")).map
      fun f => (f.severity, containsSeq (chars "***MASKED***") f.code,
        containsSeq (chars "AKIA0123456789ABCDEF") f.code)) = [("HIGH", false, true)] := by
  decide

/-- C2 (amended): every finding emitted by `SecretScanner.scan_file` for a
line has severity HIGH and its snippet is `_sanitize_line` of the line; and
the masking step delivers the mask token exactly for the shape it targets:
whenever an untruncated line contains a quoted run of at least 20
mask-class characters, the stored snippet contains the mask literal.
Unquoted secret shapes are outside this guarantee (see the
counterexample). -/
theorem C2_secret_findings_high_and_sanitized :
    (∀ (fp : String) (n : Nat) (l : Chars), ∀ f ∈ secretsScanLine fp n l,
      f.severity = "HIGH" ∧ f.code = sanitizeLine l) ∧
    (∀ l : Chars, l.length ≤ 100 → searchD maskPatM l = true →
      containsSeq maskedLit (sanitizeLine l) = true) := by
  constructor
  · intro fp n l f hf
    unfold secretsScanLine at hf
    split at hf
    · cases hf
    · rw [List.mem_filterMap] at hf
      obtain ⟨chk, _, hc⟩ := hf
      split at hc
      · cases hc
        exact ⟨rfl, rfl⟩
      · cases hc
  · intro l hlen h
    have ht : truncateLine l = l := by
      unfold truncateLine
      rw [if_neg (by omega)]
    unfold sanitizeLine
    rw [ht]
    exact maskSub_contains_mask l h

/-- Witness for C2 (amended): the AWS access-key line for the snippet part,
and a quoted 20-character token assignment for the masking part. -/
theorem C2_secret_findings_high_and_sanitized_witness :
    (("HIGH" : String) = "HIGH" ∧
      chars "key = AKIA0123456789ABCDEF" = sanitizeLine (chars "key = AKIA0123456789ABCDEF")) ∧
    containsSeq maskedLit (sanitizeLine (chars "token = \"abcdefghijklmnopqrst\"")) = true :=
  ⟨C2_secret_findings_high_and_sanitized.1 "config.py" 1 (chars "key = AKIA0123456789ABCDEF")
    { type := "AWS_ACCESS_KEY", severity := "HIGH", file := "config.py", line := 1,
      description := "AWS Access Key ID detected",
      code := chars "key = AKIA0123456789ABCDEF" }
    (by decide),
   C2_secret_findings_high_and_sanitized.2 (chars "token = \"abcdefghijklmnopqrst\"")
    (by decide) (by decide)⟩

/-- C6 (counterexample): sanitization is not idempotent.  Masking the first
quoted run of `"a…a"b…b"` leaves the mask's closing quote adjacent to the
remaining `b…b"`, which forms a new quoted run that a second application
masks. -/
theorem C6_counterexample_not_idempotent :
    sanitizeLine (sanitizeLine (chars "\"aaaaaaaaaaaaaaaaaaaa\"bbbbbbbbbbbbbbbbbbbb\"")) ≠
      sanitizeLine (chars "\"aaaaaaaaaaaaaaaaaaaa\"bbbbbbbbbbbbbbbbbbbb\"") := by
  decide

/-- C6 (amended): on lines without quote characters `_sanitize_line` is
idempotent (in particular truncation alone is idempotent); only a quoted
run re-exposed by masking can be masked again. -/
theorem C6_sanitize_idempotent_on_quote_free (l : Chars)
    (h : ∀ c ∈ l, isQuote c = false) :
    sanitizeLine (sanitizeLine l) = sanitizeLine l := by
  have h1 := maskSub_of_no_quote (truncateLine l) (truncateLine_no_quote l h)
  unfold sanitizeLine
  rw [h1, truncateLine_idem, h1]

/-- Witness for C6 (amended). -/
theorem C6_sanitize_idempotent_on_quote_free_witness :
    sanitizeLine (sanitizeLine (chars "x = 5")) = sanitizeLine (chars "x = 5") :=
  C6_sanitize_idempotent_on_quote_free (chars "x = 5") (by decide)

/-- C7: the comment-prefix exemption applies to DEBUG (static analyzer) and
to SECRET (secret scanner) but not to TODO: `# TODO: fix this` yields
exactly one finding, a MEDIUM TODO, while any line whose stripped form
starts with `#` yields no DEBUG finding and no secret finding. -/
theorem C7_comment_exemption_skips_debug_not_todo :
    ((staticScanFile "app.py" (chars "# TODO: fix this")).map
      fun f => (f.type, f.severity)) = [("TODO", "MEDIUM")] ∧
    ∀ fp n l, startsSeq (chars "#") (pstrip l) = true →
      staticDebugFindings fp n l = [] ∧ secretsScanLine fp n l = [] := by
  refine ⟨by decide, fun fp n l h => ?_⟩
  have his : isInStringOrComment l = true := by
    simp [isInStringOrComment, h]
  refine ⟨staticDebugFindings_nil_of_heuristic fp n l his, ?_⟩
  simp [secretsScanLine, h]

/-- Witness for C7 at a comment-prefixed debug line. -/
theorem C7_comment_exemption_witness :
    staticDebugFindings "app.py" 2 (chars "# print(\"x\")") = [] ∧
      secretsScanLine "app.py" 2 (chars "# print(\"x\")") = [] :=
  C7_comment_exemption_skips_debug_not_todo.2 "app.py" 2 (chars "# print(\"x\")") (by decide)

/-- C8: a ticket status is accepted exactly when its upper-cased trimmed
form is one of the six canonical allow-list members (the source list's
duplicate case variants collapse under normalization). -/
theorem C8_status_allow_list (s : Chars) :
    statusAllowedJ s = true ↔
      normStatus s ∈ [chars "TO DO", chars "IN PROGRESS", chars "IN REVIEW",
        chars "READY FOR REVIEW", chars "CODE REVIEW", chars "DONE"] := by
  unfold statusAllowedJ
  rw [show allowedStatuses.map normStatus =
    [chars "IN PROGRESS", chars "IN PROGRESS", chars "IN PROGRESS",
     chars "READY FOR REVIEW", chars "READY FOR REVIEW",
     chars "IN REVIEW", chars "IN REVIEW", chars "CODE REVIEW", chars "CODE REVIEW",
     chars "TO DO", chars "TO DO", chars "TO DO", chars "DONE", chars "DONE"] from by decide]
  rw [containsCharsIffMem]
  simp only [List.mem_cons, List.not_mem_nil, or_false]
  tauto

/-- C9 (counterexample): with all GitHub environment variables absent,
`check_production_ready` returns a passing `(True, [])` and its CLI exits
0 — missing configuration is treated as a passing skip, not an abort. -/
theorem C9_counterexample_missing_config_passes :
    checkProductionReady none none none (Except.ok []) = (true, []) ∧
    helperProductionMainExit none none none (Except.ok []) = 0 :=
  ⟨rfl, rfl⟩

/-- C9 (amended): the secrets and static-analysis entrypoints do abort with
exit code 1 when a required variable is missing, while
`check_production_ready` skips with a passing empty result. -/
theorem C9_missing_config_behaviour (tok repo pr : Option String)
    (filesRes : Except String (List FileInfo))
    (h : (truthyEnv tok && truthyEnv repo && truthyEnv pr) = false) :
    secretsMainExit tok repo pr filesRes = 1 ∧
    staticMainExit tok repo pr filesRes = 1 ∧
    checkProductionReady tok repo pr filesRes = (true, []) := by
  unfold secretsMainExit staticMainExit checkProductionReady
  rw [h]
  simp

/-- Witness for C9 (amended) with the token absent. -/
theorem C9_missing_config_behaviour_witness :
    secretsMainExit none (some "o/r") (some "7") (Except.ok []) = 1 ∧
    staticMainExit none (some "o/r") (some "7") (Except.ok []) = 1 ∧
    checkProductionReady none (some "o/r") (some "7") (Except.ok []) = (true, []) :=
  C9_missing_config_behaviour none (some "o/r") (some "7") (Except.ok []) (by decide)

/-- C10: any line containing a triple quote is treated as inside a
string/comment by `_is_in_string_or_comment`, so the static analyzer emits
no DEBUG_CODE finding for it — even for a genuine debug statement such as
`print("""message""")`. -/
theorem C10_triple_quote_suppresses_debug (fp : String) (n : Nat) (l : Chars)
    (h : containsSeq (chars "\"\"\"") l = true ∨ containsSeq (chars "'''") l = true) :
    staticDebugFindings fp n l = [] := by
  have his : isInStringOrComment l = true := by
    rcases h with h | h <;> simp [isInStringOrComment, h]
  exact staticDebugFindings_nil_of_heuristic fp n l his

/-- Witness for C10 at `print("""message""")`. -/
theorem C10_triple_quote_suppresses_debug_witness :
    staticDebugFindings "app.py" 3 (chars "print(\"\"\"message\"\"\")") = [] :=
  C10_triple_quote_suppresses_debug "app.py" 3 (chars "print(\"\"\"message\"\"\")")
    (Or.inl (by decide))
